import Mathlib

/-!
Verification of the caa-backup download/ledger engine.

This file gives a shallow embedding of the core of the repository:

* `store.py` — the SQLite ledger (`CAABackupDataStore`): rows of the
  `caa_backup` table, the `update`, `bulk_update_downloaded_status`,
  `mark_all_as_undownloaded` and `get_status_counts` operations, and the
  retry-on-"database is locked" loops wrapping them.
* `caa_downloader.py` — the download worker
  (`CAADownloader._download_and_save_record`): extension and target-path
  derivation, the HTTP outcome classification, the database-lock retry
  loop, and `get_download_rate`.
* `caa_verify.py` — the verifier (`CAAVerifier`): filename parsing,
  `chunk_list`, and `run_verifier`.
* `caa_backup.py` — the earlier revision's `_download_file` with its
  429/503 exponential-backoff loop.

Python strings are modelled as `List Char` (the kernel can evaluate list
functions, unlike `String.splitOn` and friends); `Str` abbreviates this.
Stateful loops (`while True:` retry loops) are modelled with an explicit
fuel argument: a result of `none` means the loop has not returned within
`fuel` iterations, so `∀ fuel, … = none` means the loop never returns.
-/

abbrev Str := List Char

/-- `CoverStatus` from `store.py`: the per-item download status enum
(`NOT_DOWNLOADED=0, DOWNLOADED=1, TEMP_ERROR=2, PERMANENT_ERROR=3`). -/
inductive CoverStatus where
  | NOT_DOWNLOADED
  | DOWNLOADED
  | TEMP_ERROR
  | PERMANENT_ERROR
deriving DecidableEq, Repr

/-- The integer value persisted for each status (`enum.Enum` values in
`store.py`). -/
def CoverStatus.val : CoverStatus → Nat
  | .NOT_DOWNLOADED => 0
  | .DOWNLOADED => 1
  | .TEMP_ERROR => 2
  | .PERMANENT_ERROR => 3

/-- One row of the `caa_backup` table (`class CAABackup` in `store.py`):
`caa_id` is the big-integer primary key, `release_mbid` the owning
release's MBID, plus status, error text, mime type and upload timestamp
(timestamps abstracted to integers). -/
structure CAABackupRow where
  caa_id : Int
  release_mbid : Str
  status : CoverStatus
  error : Option Str
  mime_type : Option Str
  date_uploaded : Option Int
deriving DecidableEq, Repr

/-- `CAABackupDataStore.bulk_update_downloaded_status` (store.py): the single
SQL `UPDATE caa_backup SET status = DOWNLOADED WHERE caa_id IN (…)`.
Only the `status` column of matching rows changes; ids not present in the
ledger match no row and are ignored.  (The `if not caa_ids: return` guard
is behaviourally the identity, as is an `IN ()` update.) -/
def bulk_update_downloaded_status (caa_ids : List Int) (ledger : List CAABackupRow) :
    List CAABackupRow :=
  ledger.map fun r =>
    if r.caa_id ∈ caa_ids then { r with status := CoverStatus.DOWNLOADED } else r

/-- `CAABackupDataStore.mark_all_as_undownloaded` (store.py): the single SQL
`UPDATE caa_backup SET status = NOT_DOWNLOADED` over every row. -/
def mark_all_as_undownloaded (ledger : List CAABackupRow) : List CAABackupRow :=
  ledger.map fun r => { r with status := CoverStatus.NOT_DOWNLOADED }

/-- `CAABackupDataStore.get_status_counts` (store.py), one entry of the
returned dict: the number of rows whose `status` column equals the given
status value. -/
def get_status_counts (ledger : List CAABackupRow) (st : CoverStatus) : Nat :=
  (ledger.filter fun r => r.status = st).length

/-- The lookup inside `CAABackupDataStore.update` (store.py):
`self.model.get((caa_id == …) & (release_mbid == …))`, returning the
matching row if one exists (`DoesNotExist` otherwise). -/
def find_record (ledger : List CAABackupRow) (caa_id : Int) (release_mbid : Str) :
    Option CAABackupRow :=
  ledger.find? fun r => r.caa_id = caa_id ∧ r.release_mbid = release_mbid

/-- The ledger mutation performed by one successful pass of
`CAABackupDataStore.update` (store.py): the fetched record's `status` and
`error` fields are overwritten and the row saved back under its primary
key; all other fields are written back unchanged (`record.release_mbid =
release_mbid` re-assigns the value it was fetched by). -/
def update_apply (ledger : List CAABackupRow) (caa_id : Int) (release_mbid : Str)
    (new_status : CoverStatus) (error : Option Str) : List CAABackupRow :=
  ledger.map fun r =>
    if r.caa_id = caa_id ∧ r.release_mbid = release_mbid then
      { r with status := new_status, error := error }
    else r

/-- The `while True:` loop of `CAABackupDataStore.update` (store.py).
Each iteration either hits a "database is locked" `OperationalError`
(`locked k = true` for the `k`-th attempt) and sleeps `DB_RETRY_DELAY_SECONDS`
before continuing, or performs the lookup: a found record is updated and the
loop returns; `DoesNotExist` is caught, an error is printed, and — the branch
having neither `return` nor `raise` — the loop continues.  `none` means the
loop has not returned within `fuel` iterations. -/
def update_loop (locked : Nat → Bool) (ledger : List CAABackupRow) (caa_id : Int)
    (release_mbid : Str) (new_status : CoverStatus) (error : Option Str) :
    Nat → Nat → Option (List CAABackupRow)
  | _, 0 => none
  | k, fuel + 1 =>
    if locked k then
      update_loop locked ledger caa_id release_mbid new_status error (k + 1) fuel
    else
      match find_record ledger caa_id release_mbid with
      | some _ => some (update_apply ledger caa_id release_mbid new_status error)
      | none => update_loop locked ledger caa_id release_mbid new_status error (k + 1) fuel

/-- The `while True:` loop of `CAABackupDataStore.bulk_update_downloaded_status`
(store.py): each iteration either hits a "database is locked"
`OperationalError` (`locked k = true`), sleeps `DB_RETRY_DELAY_SECONDS` and
continues, or commits the atomic bulk update and returns.  `none` means the
loop has not returned within `fuel` iterations. -/
def bulk_update_loop (locked : Nat → Bool) (caa_ids : List Int)
    (ledger : List CAABackupRow) : Nat → Nat → Option (List CAABackupRow)
  | _, 0 => none
  | k, fuel + 1 =>
    if locked k then bulk_update_loop locked caa_ids ledger (k + 1) fuel
    else some (bulk_update_downloaded_status caa_ids ledger)

/-- Single-character string split, the model of Python's `str.split(sep)`
for a one-character separator (used with `'-'` and `'.'` and `'/'` in the
source).  `split_on_char sep s` never returns an empty list, and
`split_on_char sep [] = [[]]`, as in Python. -/
def split_on_char (sep : Char) : Str → List Str
  | [] => [[]]
  | c :: rest =>
    let r := split_on_char sep rest
    if c = sep then [] :: r else (c :: r.headD []) :: r.tail

/-- Model of Python's `int(s)` restricted to an optional sign followed by
decimal digits (the forms that occur in filenames); any other input raises
`ValueError`, modelled as `none`. -/
def py_int (s : Str) : Option Int :=
  let digits : Str → Option Nat := fun ds =>
    if ds = [] ∨ ¬ ds.all Char.isDigit then none
    else some (ds.foldl (fun acc c => acc * 10 + (c.toNat - 48)) 0)
  match s with
  | '-' :: rest => (digits rest).map fun n => -(n : Int)
  | '+' :: rest => (digits rest).map fun n => (n : Int)
  | _ => (digits s).map fun n => (n : Int)

/-- The extension derivation in `CAADownloader._download_and_save_record`
(caa_downloader.py): when `record.mime_type` is present and truthy
(non-empty), `'jpg' if mime_type == 'image/jpeg' else mime_type.split('/')[-1]`;
otherwise `'jpg'`. -/
def extension_for (mime_type : Option Str) : Str :=
  match mime_type with
  | none => "jpg".toList
  | some m =>
    if m = [] then "jpg".toList
    else if m = "image/jpeg".toList then "jpg".toList
    else (split_on_char '/' m).getLastD m

/-- `os.path.join(a, b)` for a relative second component, as used when
building the target directory and file path in caa_downloader.py. -/
def path_join (a b : Str) : Str := a ++ "/".toList ++ b

/-- The target directory of `CAADownloader._download_and_save_record`:
`os.path.join(cache_dir, release_mbid[0], release_mbid[1])`.  Indexing a
one-character slice models Python's character indexing (the source raises
`IndexError` on an mbid shorter than two characters; the model is total). -/
def target_dir (cache_dir release_mbid : Str) : Str :=
  path_join (path_join cache_dir (release_mbid.take 1)) ((release_mbid.drop 1).take 1)

/-- A record as consumed by `CAADownloader._download_and_save_record`
(a `CAABackup` model instance, of which the worker reads `release_mbid`,
`caa_id` and `mime_type`). -/
structure CAARecord where
  release_mbid : Str
  caa_id : Int
  mime_type : Option Str
deriving DecidableEq, Repr

/-- The file name built in `CAADownloader._download_and_save_record`:
`f"{release_mbid}-{caa_id}.{extension}"`. -/
def record_filename (rec : CAARecord) : Str :=
  rec.release_mbid ++ "-".toList ++ (toString rec.caa_id).toList
    ++ ".".toList ++ extension_for rec.mime_type

/-- The full target path of `CAADownloader._download_and_save_record`:
`os.path.join(target_dir, filename)`. -/
def target_path (cache_dir : Str) (rec : CAARecord) : Str :=
  path_join (target_dir cache_dir rec.release_mbid) (record_filename rec)

/-- The test `"database is locked" in str(e).lower()` from the generic
exception handler of `CAADownloader._download_and_save_record`. -/
def contains_locked (msg : Str) : Bool :=
  let lowered := msg.map Char.toLower
  let needle := "database is locked".toList
  (List.range (lowered.length + 1)).any fun i => needle.isPrefixOf (lowered.drop i)

/-- How one iteration of the try-block of
`CAADownloader._download_and_save_record` resolves, as seen by its
exception handlers:
* `httpOk body` — `requests.get` succeeded with a non-error status,
  `raise_for_status()` passed, the file write and the ledger update both
  completed (`body` abstracts `response.content`);
* `httpErr code msg` — `raise_for_status()` raised
  `requests.exceptions.HTTPError` for HTTP status `code`;
* `reqErr msg` — `requests.get` raised another
  `requests.exceptions.RequestException` (timeout, connection error);
* `exn msg` — a statement before the ledger update raised a generic
  exception (e.g. an `OSError` from `open`/`write`, or a database error),
  caught by the bare `except Exception` handler. -/
inductive AttemptEvent where
  | httpOk (body : Nat)
  | httpErr (code : Nat) (msg : Str)
  | reqErr (msg : Str)
  | exn (msg : Str)

/-- The observable effects of one `_download_and_save_record` call:
the sequence of `datastore.update` calls made for this record (status and
error text), the `(path, bytes)` writes to the filesystem, the number of
HTTP fetches issued, and the worker's return value (`(mbid, caa_id)` on
success, `(None, None)` — here `none` — otherwise). -/
structure WorkerOutcome where
  updates : List (CoverStatus × Option Str)
  written : List (Str × Nat)
  attempts : Nat
  retval : Option (Str × Int)
deriving DecidableEq, Repr

/-- The `while retries < max_retries` loop of
`CAADownloader._download_and_save_record` (caa_downloader.py), driven by the
per-attempt events `ev`.  `k` counts fetches already issued, `fuel` is the
number of retries still allowed (`max_retries = 5` at the top call).
Branches, in the order of the source's handlers:
* success: write the file at the target path, update the ledger to
  `DOWNLOADED`, return `(mbid, caa_id)`;
* `HTTPError` with `400 <= code < 500`: update to `PERMANENT_ERROR`, return;
  other codes (5xx): update to `TEMP_ERROR`, return — in either case no
  retry and no file write;
* other `RequestException`: update to `TEMP_ERROR`, return;
* generic exception containing "database is locked": back off and retry;
  any other generic exception: update to `TEMP_ERROR`, return.
When the loop exhausts its retries it updates the record to `TEMP_ERROR`
with the message "Max retries reached due to database lock.". -/
def download_and_save_loop (cache_dir : Str) (rec : CAARecord)
    (ev : Nat → AttemptEvent) : Nat → Nat → WorkerOutcome
  | k, 0 =>
    ⟨[(CoverStatus.TEMP_ERROR, some "Max retries reached due to database lock.".toList)],
      [], k, none⟩
  | k, fuel + 1 =>
    match ev k with
    | .httpOk body =>
      ⟨[(CoverStatus.DOWNLOADED, none)], [(target_path cache_dir rec, body)], k + 1,
        some (rec.release_mbid, rec.caa_id)⟩
    | .httpErr code msg =>
      if 400 ≤ code ∧ code < 500 then
        ⟨[(CoverStatus.PERMANENT_ERROR, some msg)], [], k + 1, none⟩
      else
        ⟨[(CoverStatus.TEMP_ERROR, some msg)], [], k + 1, none⟩
    | .reqErr msg => ⟨[(CoverStatus.TEMP_ERROR, some msg)], [], k + 1, none⟩
    | .exn msg =>
      if contains_locked msg then download_and_save_loop cache_dir rec ev (k + 1) fuel
      else ⟨[(CoverStatus.TEMP_ERROR, some msg)], [], k + 1, none⟩

/-- `CAADownloader._download_and_save_record` (caa_downloader.py): the retry
loop entered with `retries = 0` and `max_retries = 5`. -/
def download_and_save_record (cache_dir : Str) (rec : CAARecord)
    (ev : Nat → AttemptEvent) : WorkerOutcome :=
  download_and_save_loop cache_dir rec ev 0 5

/-- `CAADownloader.get_download_rate` (caa_downloader.py): `0.0` with fewer
than two recorded completion times, else
`(len(download_times) - 1) / (download_times[-1] - download_times[0])`,
with a non-positive elapsed time also giving `0.0`.  Timestamps are
modelled as rationals. -/
def get_download_rate (download_times : List ℚ) : ℚ :=
  if download_times.length < 2 then 0
  else if download_times.getLastD 0 - download_times.headD 0 ≤ 0 then 0
  else ((download_times.length : ℚ) - 1)
    / (download_times.getLastD 0 - download_times.headD 0)

/-- Model of `os.path.splitext(file)[0]` as used in
`CAAVerifier._get_caa_ids_from_cache`: the filename with its final
dot-extension removed (a name with no dot is returned whole).  Faithful for
the plain `name.ext` filenames the verifier walks (it does not reproduce
Python's special-casing of names made of leading dots). -/
def splitext_stem (filename : Str) : Str :=
  let parts := split_on_char '.' filename
  if parts.length ≤ 1 then filename
  else List.intercalate ".".toList parts.dropLast

/-- The per-filename parse of `CAAVerifier._get_caa_ids_from_cache`
(caa_verify.py): split the stem on `'-'`; when at least 6 fields result,
`int(parts[5])` is the CAA id (a `ValueError` skips the file); otherwise
the file is skipped. -/
def parse_caa_id (filename : Str) : Option Int :=
  let parts := split_on_char '-' (splitext_stem filename)
  if 6 ≤ parts.length then py_int (parts.getD 5 []) else none

/-- `CAAVerifier._get_caa_ids_from_cache` (caa_verify.py) over the list of
filenames produced by the `os.walk` of the cache directory: every filename
that parses contributes its CAA id, in walk order. -/
def get_caa_ids_from_cache (files : List Str) : List Int :=
  files.filterMap parse_caa_id

/-- `chunk_list(data, size)` (caa_verify.py):
`[data[i:i + size] for i in range(0, len(data), size)]`.
`List.range' 0 ((data.length + size - 1) / size) size` is exactly
`range(0, len(data), size)` for a positive step (the source only calls it
with `size = 1000`; Python raises on step 0, where this model gives `[]`). -/
def chunk_list {α : Type} (data : List α) (size : Nat) : List (List α) :=
  (List.range' 0 ((data.length + size - 1) / size) size).map
    fun i => (data.drop i).take size

/-- `CAAVerifier.run_verifier` (caa_verify.py): reset every row to
`NOT_DOWNLOADED`, scan the cache for CAA ids, then apply
`bulk_update_downloaded_status` to each 1000-id chunk in order. -/
def run_verifier (ledger : List CAABackupRow) (files : List Str) : List CAABackupRow :=
  (chunk_list (get_caa_ids_from_cache files) 1000).foldl
    (fun led batch => bulk_update_downloaded_status batch led)
    (mark_all_as_undownloaded ledger)

/-- An HTTP response as seen by `CoverArtLoader._download_file`
(caa_backup.py): either a 200 with a body, or a bare status code. -/
inductive HTTPResp where
  | ok (body : Nat)
  | code (c : Nat)

/-- `CoverArtLoader._download_file` (caa_backup.py) — the earlier revision's
fetch loop, which is where the 429/503 exponential backoff lives: starting
from `sleep_duration = 2`, a 429 or 503 sleeps and doubles the duration,
giving up with an error message once the doubled duration exceeds 100;
200 returns the body; 403/404 and any other status return an error message
immediately.  This function returns no status and touches no ledger — its
caller only turns a non-`none` error into the string "download failed".
`resp k` is the response to the `k`-th request; `none` means the loop has
not returned within `fuel` iterations. -/
def download_file (resp : Nat → HTTPResp) :
    Nat → Nat → Nat → Option (Option Nat × Str)
  | _, _, 0 => none
  | k, sleep_duration, fuel + 1 =>
    match resp k with
    | .ok body => some (some body, "".toList)
    | .code c =>
      if c = 403 ∨ c = 404 then
        some (none, ("Could not load resource: " ++ toString c ++ ".").toList)
      else if c = 429 then
        if sleep_duration * 2 > 100 then
          some (none, "Timeout loading image, due to 429".toList)
        else download_file resp (k + 1) (sleep_duration * 2) fuel
      else if c = 503 then
        if sleep_duration * 2 > 100 then
          some (none, "Timeout loading image, 503".toList)
        else download_file resp (k + 1) (sleep_duration * 2) fuel
      else some (none, ("Unhandled status code: " ++ toString c).toList)

/-- A one-row ledger used as a concrete fixture: CAA id 1 for release
"aa", not yet downloaded. -/
def ledger1 : List CAABackupRow :=
  [⟨1, "aa".toList, CoverStatus.NOT_DOWNLOADED, none, none, none⟩]

/-- A concrete record fixture for the download worker. -/
def rec_jpeg : CAARecord :=
  ⟨"aabcdef0-1111-2222-3333-444455556666".toList, 1001, some "image/jpeg".toList⟩

/-- The two-row ledger of the C5 scenario: items 1001 and 1002, both
`NOT_DOWNLOADED`. -/
def ledger_c5 : List CAABackupRow :=
  [⟨1001, "aabcd".toList, CoverStatus.NOT_DOWNLOADED, none, none, none⟩,
   ⟨1002, "aabcd".toList, CoverStatus.NOT_DOWNLOADED, none, none, none⟩]

/-- File fixture: item 1001 of a UUID-shaped parent id. -/
def file_1001 : Str := "aabcdef0-1111-2222-3333-444455556666-1001.jpg".toList

/-- File fixture: item 1002 of a UUID-shaped parent id. -/
def file_1002 : Str := "aabcdef0-1111-2222-3333-444455556666-1002.jpg".toList

/-- A record fixture whose mime type is not a recognizable mime type. -/
def rec_badmime : CAARecord := ⟨"abcdefgh".toList, 1001, some "not-a-mime".toList⟩

/-- A three-row ledger fixture (ids 1, 2, 3) with assorted statuses. -/
def ledger3 : List CAABackupRow :=
  [⟨1, "aa".toList, CoverStatus.TEMP_ERROR, none, none, none⟩,
   ⟨2, "ab".toList, CoverStatus.NOT_DOWNLOADED, none, none, none⟩,
   ⟨3, "ac".toList, CoverStatus.DOWNLOADED, none, none, none⟩]

/-- Projection of a ledger row onto the fields that the status-changing
operations must leave untouched. -/
def row_key (r : CAABackupRow) : Int × Str × Option Str × Option Int :=
  (r.caa_id, r.release_mbid, r.mime_type, r.date_uploaded)

/-- Helper: under a permanently locked storage, `update_loop` never
returns, whatever the fuel. -/
theorem update_loop_always_locked (locked : Nat → Bool) (h : ∀ n, locked n = true)
    (ledger : List CAABackupRow) (caa_id : Int) (release_mbid : Str)
    (new_status : CoverStatus) (error : Option Str) :
    ∀ fuel k, update_loop locked ledger caa_id release_mbid new_status error k fuel = none := by
  intro fuel
  induction fuel with
  | zero => intro k; rfl
  | succ n ih => intro k; simp [update_loop, h k, ih]

/-- Helper: under a permanently locked storage, `bulk_update_loop` never
returns, whatever the fuel. -/
theorem bulk_update_loop_always_locked (locked : Nat → Bool) (h : ∀ n, locked n = true)
    (caa_ids : List Int) (ledger : List CAABackupRow) :
    ∀ fuel k, bulk_update_loop locked caa_ids ledger k fuel = none := by
  intro fuel
  induction fuel with
  | zero => intro k; rfl
  | succ n ih => intro k; simp [bulk_update_loop, h k, ih]

/-- C1: a fetch that returns HTTP 429 is recorded as `PERMANENT_ERROR` by
`_download_and_save_record` after a single fetch attempt — the
`400 <= status < 500` branch catches 429 — with no in-process backoff
retry, contradicting the spec's transient-capped classification (the
exponential backoff for 429/503 exists only in `caa_backup.py`'s
`_download_file`, which records no ledger status at all). -/
theorem http429_recorded_permanent_error :
    download_and_save_record "cache".toList rec_jpeg
        (fun _ => AttemptEvent.httpErr 429 "429 Client Error: Too Many Requests for url".toList) =
      ⟨[(CoverStatus.PERMANENT_ERROR,
          some "429 Client Error: Too Many Requests for url".toList)], [], 1, none⟩ := by
  decide

/-- C2: calling `CAABackupDataStore.update` for a `(caa_id, release_mbid)`
pair with no matching ledger record never returns: the `DoesNotExist`
handler prints and falls through to the next iteration of `while True:`,
so for every fuel bound the loop is still running and no `NotFound` error
ever reaches the caller (the ledger is also never modified, the loop
performing only the failing lookup).  Concrete failing input: ledger with
only row `(1, "aa")`, update requested for `(2, "bb")`. -/
theorem update_missing_record_never_returns (fuel k : Nat) :
    update_loop (fun _ => false) ledger1 2 "bb".toList CoverStatus.DOWNLOADED none k fuel =
      none := by
  have hfind : find_record ledger1 2 ['b', 'b'] = none := by decide
  induction fuel generalizing k with
  | zero => rfl
  | succ n ih =>
    simp only [update_loop, Bool.false_eq_true, if_false, hfind]
    exact ih (k + 1)

/-- C3 counterexample: the claim says every ledger write operation retries
a busy/locked storage at most a bounded number of times and then surfaces
the error.  On a storage that reports "database is locked" at every
attempt, `bulk_update_downloaded_status`'s retry loop has, after one
million iterations, neither completed nor surfaced any error. -/
theorem bulk_update_locked_million_attempts :
    bulk_update_loop (fun _ => true) [1] ledger1 0 1000000 = none :=
  bulk_update_loop_always_locked (fun _ => true) (fun _ => rfl) [1] ledger1 1000000 0

/-- C3 amended: when the storage reports "database is locked" on every
attempt, the retry loops of `bulk_update_downloaded_status` and of
`update` retry forever with a fixed 1-second delay
(`DB_RETRY_DELAY_SECONDS`): for every fuel bound they are still running —
the locked error is never surfaced to the caller and the operation does
not terminate while the condition persists. -/
theorem locked_retry_unbounded (locked : Nat → Bool) (caa_ids : List Int)
    (ledger : List CAABackupRow) (caa_id : Int) (release_mbid : Str)
    (new_status : CoverStatus) (error : Option Str) (k fuel : Nat)
    (h : ∀ n, locked n = true) :
    bulk_update_loop locked caa_ids ledger k fuel = none ∧
    update_loop locked ledger caa_id release_mbid new_status error k fuel = none :=
  ⟨bulk_update_loop_always_locked locked h caa_ids ledger fuel k,
   update_loop_always_locked locked h ledger caa_id release_mbid new_status error fuel k⟩

/-- C3 witness: the amended statement at a concrete input. -/
theorem locked_retry_unbounded_witness :
    bulk_update_loop (fun _ => true) [1] ledger1 0 7 = none ∧
    update_loop (fun _ => true) ledger1 1 "aa".toList CoverStatus.DOWNLOADED none 0 7 = none :=
  locked_retry_unbounded (fun _ => true) [1] ledger1 1 "aa".toList
    CoverStatus.DOWNLOADED none 0 7 (fun _ => rfl)

/-- C4 counterexample: the claim says a worker-level exception that is not
an HTTP classification (e.g. a filesystem error) leaves the item's ledger
status unchanged.  In the code, the generic `except Exception` handler of
`_download_and_save_record` updates the record to `TEMP_ERROR` for any
such exception whose text does not contain "database is locked": a
"No space left on device" failure during the file write is recorded as
`TEMP_ERROR`, not left unchanged. -/
theorem fs_error_marks_temp_error_cex :
    (download_and_save_record "cache".toList rec_jpeg
        (fun _ => AttemptEvent.exn "No space left on device".toList)).updates =
      [(CoverStatus.TEMP_ERROR, some "No space left on device".toList)] := by
  decide

/-- C4 amended: a worker-level exception that is not an HTTP
classification and whose text does not contain "database is locked"
(e.g. a filesystem error) is caught by the generic handler after a single
fetch attempt, the item is marked `TEMP_ERROR` with the exception text,
and the worker returns normally (`(None, None)`), so the run continues
with other items. -/
theorem worker_nonlock_exception_marked_temp (cache_dir : Str) (rec : CAARecord)
    (ev : Nat → AttemptEvent) (msg : Str) (h0 : ev 0 = AttemptEvent.exn msg)
    (h1 : contains_locked msg = false) :
    download_and_save_record cache_dir rec ev =
      ⟨[(CoverStatus.TEMP_ERROR, some msg)], [], 1, none⟩ := by
  simp [download_and_save_record, download_and_save_loop, h0, h1]

/-- C4 witness: the amended statement at a concrete input. -/
theorem worker_nonlock_exception_marked_temp_witness :
    download_and_save_record "cache".toList rec_jpeg
        (fun _ => AttemptEvent.exn "No space left on device".toList) =
      ⟨[(CoverStatus.TEMP_ERROR, some "No space left on device".toList)], [], 1, none⟩ :=
  worker_nonlock_exception_marked_temp "cache".toList rec_jpeg _
    "No space left on device".toList rfl (by decide)

/-- C7: a fetch that returns HTTP 404 makes `_download_and_save_record`
record `PERMANENT_ERROR` with the error text, write no file, issue exactly
one fetch (no retry), and return `(None, None)`. -/
theorem http404_permanent_no_write_no_retry (cache_dir : Str) (rec : CAARecord)
    (ev : Nat → AttemptEvent) (msg : Str) (h : ev 0 = AttemptEvent.httpErr 404 msg) :
    download_and_save_record cache_dir rec ev =
      ⟨[(CoverStatus.PERMANENT_ERROR, some msg)], [], 1, none⟩ := by
  simp [download_and_save_record, download_and_save_loop, h]

/-- C7 witness: the 404 statement at a concrete input. -/
theorem http404_permanent_no_write_no_retry_witness :
    download_and_save_record "cache".toList rec_jpeg
        (fun _ => AttemptEvent.httpErr 404 "404 Client Error: Not Found for url".toList) =
      ⟨[(CoverStatus.PERMANENT_ERROR,
          some "404 Client Error: Not Found for url".toList)], [], 1, none⟩ :=
  http404_permanent_no_write_no_retry "cache".toList rec_jpeg _
    "404 Client Error: Not Found for url".toList rfl

/-- C5 counterexample: with files `aabcd-1001.jpg` and `aabcd-1002.jpg` on
disk and ledger rows 1001 and 1002 both `NOT_DOWNLOADED`, running the
verifier leaves BOTH rows `NOT_DOWNLOADED`, not `DOWNLOADED` as the claim
states: the filename parser of `_get_caa_ids_from_cache` requires at least
six dash-separated fields in the stem and reads the id from field index 5
(the layout of a full 36-character UUID parent id), so the two-field stem
`aabcd-1001` is skipped. -/
theorem verify_short_mbid_files_not_marked :
    (run_verifier ledger_c5 ["aabcd-1001.jpg".toList, "aabcd-1002.jpg".toList]).map
        (fun r => r.status) =
      [CoverStatus.NOT_DOWNLOADED, CoverStatus.NOT_DOWNLOADED] ∧
    CoverStatus.NOT_DOWNLOADED ≠ CoverStatus.DOWNLOADED := by
  decide

/-- C5 amended: with files `<mbid>-1001.jpg` and `<mbid>-1002.jpg` on disk
whose parent id is a full UUID (so the stem has six dash-separated fields
and the item id sits in field index 5), running the verifier yields, for
EVERY starting ledger, exactly the rows with ids 1001 and 1002 in status
`DOWNLOADED` and every other row in `NOT_DOWNLOADED` (no other field is
touched). -/
theorem verify_marks_ids_of_uuid_named_files (ledger : List CAABackupRow) :
    run_verifier ledger [file_1001, file_1002] =
      ledger.map fun r =>
        { r with
          status :=
            if r.caa_id = 1001 ∨ r.caa_id = 1002 then CoverStatus.DOWNLOADED
            else CoverStatus.NOT_DOWNLOADED } := by
  have hids : get_caa_ids_from_cache [file_1001, file_1002] = [1001, 1002] := by decide
  have hch : chunk_list ([1001, 1002] : List Int) 1000 = [[1001, 1002]] := by decide
  rw [run_verifier, hids, hch]
  show bulk_update_downloaded_status [1001, 1002] (mark_all_as_undownloaded ledger) = _
  rw [bulk_update_downloaded_status, mark_all_as_undownloaded, List.map_map]
  apply List.map_congr_left
  intro r _
  by_cases h : r.caa_id = 1001 ∨ r.caa_id = 1002 <;>
    simp [Function.comp, h, List.mem_cons]

/-- C6 counterexample: the claim says the extension defaults to `jpg`
whenever the mime type is absent or unrecognized.  For the unrecognized
mime type string "not-a-mime" the worker writes the fetched bytes to a
path ending in `.not-a-mime`, not `.jpg`: the code special-cases only
`image/jpeg` and otherwise uses the substring after the last `/` of the
mime type, whatever it is. -/
theorem unrecognized_mime_extension_not_jpg :
    (download_and_save_record "cache".toList rec_badmime
        (fun _ => AttemptEvent.httpOk 7)).written =
      [("cache/a/b/abcdefgh-1001.not-a-mime".toList, 7)] ∧
    extension_for (some "not-a-mime".toList) ≠ "jpg".toList := by
  decide

/-- C6 amended: on a successful fetch the worker writes the fetched bytes
to `<root>/<p[0]>/<p[1]>/<p>-<i>.<ext>` (root the cache dir, `p` the
parent's release MBID, `i` the CAA id), where the extension is `jpg`
whenever the mime type is absent or empty (and for `image/jpeg`), and
otherwise is the substring of the mime type after its last `/` — even
when the mime type is not a recognized one. -/
theorem target_path_layout (cache_dir : Str) (rec : CAARecord)
    (ev : Nat → AttemptEvent) (body : Nat) (h : ev 0 = AttemptEvent.httpOk body) :
    (download_and_save_record cache_dir rec ev).written =
      [(cache_dir ++ "/".toList ++ rec.release_mbid.take 1 ++ "/".toList
          ++ (rec.release_mbid.drop 1).take 1 ++ "/".toList ++ rec.release_mbid
          ++ "-".toList ++ (toString rec.caa_id).toList ++ ".".toList
          ++ extension_for rec.mime_type, body)] ∧
    extension_for none = "jpg".toList ∧
    extension_for (some []) = "jpg".toList := by
  refine ⟨?_, rfl, rfl⟩
  simp [download_and_save_record, download_and_save_loop, h, target_path, target_dir,
    path_join, record_filename, List.append_assoc]

/-- C6 witness: the amended statement at a concrete input. -/
theorem target_path_layout_witness :
    (download_and_save_record "cache".toList rec_jpeg
        (fun _ => AttemptEvent.httpOk 7)).written =
      [("cache".toList ++ "/".toList ++ rec_jpeg.release_mbid.take 1 ++ "/".toList
          ++ (rec_jpeg.release_mbid.drop 1).take 1 ++ "/".toList ++ rec_jpeg.release_mbid
          ++ "-".toList ++ (toString rec_jpeg.caa_id).toList ++ ".".toList
          ++ extension_for rec_jpeg.mime_type, 7)] ∧
    extension_for none = "jpg".toList ∧
    extension_for (some []) = "jpg".toList :=
  target_path_layout "cache".toList rec_jpeg _ 7 rfl

/-- Helper: for duplicate-free lists, filtering one by membership in the
other counts the common elements, symmetrically. -/
theorem length_filter_mem_comm (a b : List Int) (ha : a.Nodup) (hb : b.Nodup) :
    (a.filter fun i => i ∈ b).length = (b.filter fun i => i ∈ a).length := by
  have key : ∀ (u v : List Int), u.Nodup →
      (u.filter fun i => i ∈ v).length = (u.toFinset ∩ v.toFinset).card := by
    intro u v hu
    rw [← List.toFinset_card_of_nodup (hu.filter _)]
    congr 1
    ext x
    simp [List.mem_toFinset, List.mem_filter]
  rw [key a b ha, key b a hb, Finset.inter_comm]

/-- C8: for any duplicate-free id list `S` and any ledger with
duplicate-free primary keys, `mark_all_as_undownloaded` followed by
`bulk_update_downloaded_status S` leaves the `DOWNLOADED` count of
`get_status_counts` equal to the number of ids of `S` present in the
ledger — so `|S|` when all are present, `0` when none are, with absent
ids silently ignored. -/
theorem reset_then_bulk_mark_download_count (S : List Int) (ledger : List CAABackupRow)
    (hS : S.Nodup) (hL : (ledger.map fun r => r.caa_id).Nodup) :
    get_status_counts
        (bulk_update_downloaded_status S (mark_all_as_undownloaded ledger))
        CoverStatus.DOWNLOADED =
      (S.filter fun i => i ∈ ledger.map fun r => r.caa_id).length := by
  have hmain :
      get_status_counts
          (bulk_update_downloaded_status S (mark_all_as_undownloaded ledger))
          CoverStatus.DOWNLOADED =
        List.countP (fun r => decide (r.caa_id ∈ S)) ledger := by
    simp only [get_status_counts, bulk_update_downloaded_status, mark_all_as_undownloaded,
      List.map_map, ← List.countP_eq_length_filter, List.countP_map]
    apply List.countP_congr
    intro r _
    by_cases h : r.caa_id ∈ S <;> simp [h]
  have hmid :
      List.countP (fun r => decide (r.caa_id ∈ S)) ledger =
        ((ledger.map fun r => r.caa_id).filter fun i => i ∈ S).length := by
    rw [← List.countP_eq_length_filter, List.countP_map]
    rfl
  rw [hmain, hmid]
  exact length_filter_mem_comm _ _ hL hS

/-- C8 witness: on `ledger3` and `S = [1, 2, 5]`, two ids of `S` are
present and the `DOWNLOADED` count is that number. -/
theorem reset_then_bulk_mark_download_count_witness :
    get_status_counts
        (bulk_update_downloaded_status [1, 2, 5] (mark_all_as_undownloaded ledger3))
        CoverStatus.DOWNLOADED =
      ([1, 2, 5].filter fun i => i ∈ ledger3.map fun r => r.caa_id).length :=
  reset_then_bulk_mark_download_count [1, 2, 5] ledger3 (by decide) (by decide)

/-- C9: for every window of completion timestamps whose oldest entry does
not exceed its newest (every window reachable by appending successive
`time.time()` readings), `get_download_rate` returns 0 when the window
holds fewer than 2 samples, and `(length - 1) / (newest - oldest)`
otherwise (in the rationals, where division by a zero elapsed time is 0,
matching the code's 0 for a degenerate window). -/
theorem download_rate_spec (times : List ℚ) (h : times.headD 0 ≤ times.getLastD 0) :
    (times.length < 2 → get_download_rate times = 0) ∧
    (2 ≤ times.length →
      get_download_rate times =
        ((times.length : ℚ) - 1) / (times.getLastD 0 - times.headD 0)) := by
  constructor
  · intro hlt
    rw [get_download_rate, if_pos hlt]
  · intro hge
    rw [get_download_rate, if_neg (by omega)]
    by_cases hz : times.getLastD 0 - times.headD 0 ≤ 0
    · have h0 : times.getLastD 0 - times.headD 0 = 0 := le_antisymm hz (by linarith)
      rw [if_pos hz, h0, div_zero]
    · rw [if_neg hz]

/-- C9 witness: exactly two completions, at `t = 0` and `t = 10`, give a
rate of `0.1`. -/
theorem download_rate_spec_witness :
    ([0, 10] : List ℚ).headD 0 ≤ ([0, 10] : List ℚ).getLastD 0 ∧
    get_download_rate [0, 10] = 1 / 10 := by
  have h : ([0, 10] : List ℚ).headD 0 ≤ ([0, 10] : List ℚ).getLastD 0 := by
    show (0 : ℚ) ≤ 10
    norm_num
  refine ⟨h, ?_⟩
  rw [(download_rate_spec [0, 10] h).2 (by norm_num)]
  show ((2 : ℚ) - 1) / (10 - 0) = 1 / 10
  norm_num

/-- C10: the three status-changing ledger operations — `update` (its
effect `update_apply`), `bulk_update_downloaded_status` and
`mark_all_as_undownloaded` — preserve each row's `caa_id`,
`release_mbid`, `mime_type` and `date_uploaded`, and insert or delete no
row (the `row_key` image of the ledger, in order, is unchanged); their
retry loops either are still retrying (`none`) or commit exactly that
frame-preserving mutation. -/
theorem ledger_ops_frame (ledger : List CAABackupRow) (caa_ids : List Int)
    (caa_id : Int) (release_mbid : Str) (new_status : CoverStatus)
    (error : Option Str) (locked : Nat → Bool) :
    (bulk_update_downloaded_status caa_ids ledger).map row_key = ledger.map row_key ∧
    (mark_all_as_undownloaded ledger).map row_key = ledger.map row_key ∧
    (update_apply ledger caa_id release_mbid new_status error).map row_key
        = ledger.map row_key ∧
    (∀ k fuel,
      bulk_update_loop locked caa_ids ledger k fuel = none ∨
      bulk_update_loop locked caa_ids ledger k fuel
          = some (bulk_update_downloaded_status caa_ids ledger)) ∧
    (∀ k fuel,
      update_loop locked ledger caa_id release_mbid new_status error k fuel = none ∨
      update_loop locked ledger caa_id release_mbid new_status error k fuel
          = some (update_apply ledger caa_id release_mbid new_status error)) := by
  refine ⟨?_, ?_, ?_, ?_, ?_⟩
  · rw [bulk_update_downloaded_status, List.map_map]
    apply List.map_congr_left
    intro r _
    by_cases h : r.caa_id ∈ caa_ids <;> simp [h, row_key]
  · rw [mark_all_as_undownloaded, List.map_map]
    apply List.map_congr_left
    intro r _
    simp [row_key]
  · rw [update_apply, List.map_map]
    apply List.map_congr_left
    intro r _
    by_cases h : r.caa_id = caa_id ∧ r.release_mbid = release_mbid <;> simp [h, row_key]
  · intro k fuel
    induction fuel generalizing k with
    | zero => exact Or.inl rfl
    | succ n ih =>
      by_cases h : locked k = true
      · simpa [bulk_update_loop, h] using ih (k + 1)
      · simp [bulk_update_loop, h]
  · intro k fuel
    induction fuel generalizing k with
    | zero => exact Or.inl rfl
    | succ n ih =>
      by_cases h : locked k = true
      · simpa [update_loop, h] using ih (k + 1)
      · cases hf : find_record ledger caa_id release_mbid with
        | some r => simp [update_loop, h, hf]
        | none => simpa [update_loop, h, hf] using ih (k + 1)
